import Mathlib

/-!
Verification of the gormdb2struct resolution pipeline.

The repository introspects a PostgreSQL or SQLite database and emits GORM
model definitions.  This file gives a shallow embedding of the decision
logic of that pipeline: the type-mapping precedence wired in
`postgresToGorm`, the relation-field synthesis of `genRelationField`, the
startup merge of built-in defaults in `main`, the JSON-tag override pass,
the materialized-view snapshot protocol, the config validation in `main`,
the environment fallback for connection parameters, and the rendering of
the `pgDbInit` template.  Theorems settle the specification's testable
properties against these definitions.
-/

/-- Association-list lookup with string keys, modelling Go map indexing
`v, ok := m[k]` (`none` models `ok = false`).  Go maps have unique keys, so
the first-match rule of an association list agrees with map lookup. -/
def lookupKV {α : Type} : List (String × α) → String → Option α
  | [], _ => none
  | (k, v) :: rest, key => if k = key then some v else lookupKV rest key

/-- Go `strings.LastIndex(s, sep)` for a one-character separator, over the
character list of the string; `none` models Go's `-1` result. -/
def lastIndexChar (c : Char) : List Char → Option Nat
  | [] => none
  | x :: rest =>
    match lastIndexChar c rest with
    | some i => some (i + 1)
    | none => if x = c then some 0 else none

/-- `ExtraField` from the source: a declarative relation-field spec. -/
structure ExtraField where
  structPropName : String
  structPropType : String
  fkStructPropName : String
  refStructPropName : String
  hasMany : Bool
  pointer : Bool
deriving DecidableEq, Repr

/-- The relation kind passed to `field.NewRelationWithType` (`field.HasOne`
or `field.HasMany`). -/
inductive RelationKind where
  | hasOne
  | hasMany
deriving DecidableEq, Repr

/-- The parts of a `gen.Field` that `genRelationField` assigns.  The JSON
tag produced by the external `strcase.ToLowerCamel` call is kept as the
source property name here, since the case conversion is an external
library concern. -/
structure RelField where
  name : String
  fieldType : String
  gormForeignKey : String
  gormReferences : String
  relation : RelationKind
deriving DecidableEq, Repr

/-- `genRelationField` from the source: the base type is the substring of
`StructPropType` after the last `.` (the whole string when there is no
`.`), a `*` is prepended when `Pointer` is set, and the result is wrapped
in `[]` when `HasMany` is set; the relation is `HasMany` exactly when
`HasMany` is set, otherwise `HasOne`. -/
def genRelationField (ef : ExtraField) : RelField :=
  let baseType :=
    match lastIndexChar '.' ef.structPropType.data with
    | some lastDotIndex => String.mk (ef.structPropType.data.drop (lastDotIndex + 1))
    | none => ef.structPropType
  let baseType := if ef.pointer then "*" ++ baseType else baseType
  let baseType := if ef.hasMany then "[]" ++ baseType else baseType
  { name := ef.structPropName
    fieldType := baseType
    gormForeignKey := ef.fkStructPropName
    gormReferences := ef.refStructPropName
    relation := if ef.hasMany then RelationKind.hasMany else RelationKind.hasOne }

/-- Decides that a character is not the path separator `.`; names the
predicate used to state the specification's reading of the bare type
name. -/
def notDot (c : Char) : Bool := decide (c ≠ '.')

/-- The specification's description of the bare type name: the substring
after the last path separator, stated independently of the source's
`LastIndex` slicing as the longest dot-free suffix. -/
def localTypeToken (s : String) : String :=
  String.mk ((s.data.reverse.takeWhile notDot).reverse)

theorem notDot_eq_true {c : Char} (h : c ≠ '.') : notDot c = true := by
  simp [notDot, h]

theorem notDot_eq_false : notDot '.' = false := by
  simp [notDot]

theorem takeWhile_append_of_all {α : Type} (p : α → Bool) (l1 l2 : List α)
    (h : ∀ a ∈ l1, p a = true) :
    (l1 ++ l2).takeWhile p = l1 ++ l2.takeWhile p := by
  induction l1 with
  | nil => simp
  | cons x rest ih =>
    have hx : p x = true := h x (by simp)
    simp [List.takeWhile, hx, ih (fun a ha => h a (by simp [ha]))]

theorem takeWhile_append_of_mem {α : Type} (p : α → Bool) (l1 l2 : List α)
    (h : ∃ a ∈ l1, p a = false) :
    (l1 ++ l2).takeWhile p = l1.takeWhile p := by
  induction l1 with
  | nil => simp at h
  | cons x rest ih =>
    by_cases hx : p x = true
    · rcases h with ⟨a, ha, hpa⟩
      rcases List.mem_cons.mp ha with rfl | hmem
      · rw [hpa] at hx; cases hx
      · simp [List.takeWhile, hx, ih ⟨a, hmem, hpa⟩]
    · simp [List.takeWhile, Bool.eq_false_iff.mpr hx]

theorem lastIndexChar_eq_none_iff (c : Char) (cs : List Char) :
    lastIndexChar c cs = none ↔ c ∉ cs := by
  induction cs with
  | nil => simp [lastIndexChar]
  | cons x rest ih =>
    cases hrest : lastIndexChar c rest with
    | some i =>
      simp only [lastIndexChar, hrest, List.mem_cons]
      constructor
      · intro h; cases h
      · intro h
        exfalso
        apply h
        right
        by_contra hn
        have hnone := ih.mpr hn
        rw [hnone] at hrest
        exact Option.noConfusion hrest
    | none =>
      simp only [lastIndexChar, hrest, List.mem_cons]
      have hnotin : c ∉ rest := ih.mp hrest
      by_cases hx : x = c
      · simp [hx]
      · rw [if_neg hx]
        constructor
        · intro _
          push_neg
          exact ⟨fun h => hx h.symm, hnotin⟩
        · intro _; rfl

/-- The drop-after-last-dot computation of `genRelationField` coincides
with the specification's reading of the bare type name: the longest
dot-free suffix of the fully-qualified type. -/
theorem afterLastDot_eq_takeWhile (cs : List Char) :
    (match lastIndexChar '.' cs with
     | some i => cs.drop (i + 1)
     | none => cs) = (cs.reverse.takeWhile notDot).reverse := by
  induction cs with
  | nil => simp [lastIndexChar]
  | cons x rest ih =>
    cases hrest : lastIndexChar '.' rest with
    | some i =>
      have hmem : '.' ∈ rest := by
        by_contra hn
        have hnone := (lastIndexChar_eq_none_iff '.' rest).mpr hn
        rw [hnone] at hrest
        exact Option.noConfusion hrest
      have hmemrev : ∃ a ∈ rest.reverse, notDot a = false :=
        ⟨'.', List.mem_reverse.mpr hmem, notDot_eq_false⟩
      rw [hrest] at ih
      simp only [lastIndexChar, hrest, List.reverse_cons,
        takeWhile_append_of_mem notDot rest.reverse [x] hmemrev, List.drop_succ_cons]
      exact ih
    | none =>
      have hnotin : '.' ∉ rest := (lastIndexChar_eq_none_iff '.' rest).mp hrest
      have hall : ∀ a ∈ rest.reverse, notDot a = true := by
        intro a ha
        exact notDot_eq_true (fun hac => hnotin (hac ▸ List.mem_reverse.mp ha))
      by_cases hx : x = '.'
      · simp only [lastIndexChar, hrest, hx, if_pos rfl, List.reverse_cons,
          takeWhile_append_of_all notDot rest.reverse ['.'] hall, List.drop_succ_cons,
          List.drop_zero]
        simp [List.takeWhile, notDot_eq_false]
      · simp only [lastIndexChar, hrest, if_neg hx, List.reverse_cons,
          takeWhile_append_of_all notDot rest.reverse [x] hall]
        simp [List.takeWhile, notDot_eq_true hx]

/-- The field type produced by `genRelationField`, characterized through
the specification's bare-type-name reading. -/
theorem genRelationField_fieldType (ef : ExtraField) :
    (genRelationField ef).fieldType =
      (let base := localTypeToken ef.structPropType
       let base := if ef.pointer then "*" ++ base else base
       if ef.hasMany then "[]" ++ base else base) := by
  have hbase :
      (match lastIndexChar '.' ef.structPropType.data with
       | some lastDotIndex => String.mk (ef.structPropType.data.drop (lastDotIndex + 1))
       | none => ef.structPropType) = localTypeToken ef.structPropType := by
    have h := afterLastDot_eq_takeWhile ef.structPropType.data
    cases hidx : lastIndexChar '.' ef.structPropType.data with
    | some i =>
      rw [hidx] at h
      simp only [localTypeToken, ← h]
    | none =>
      rw [hidx] at h
      simp only [localTypeToken, ← h]
  simp only [genRelationField, hbase]

/-- C2: for every `ExtraField` spec the synthesized field's type string is
the bare local type token (substring after the last path separator),
prefixed with `*` when `Pointer` is set, then wrapped in `[]` when
`HasMany` is set; in particular `models.Attachment` with `HasMany` and
`Pointer` set yields `[]*Attachment`, and the relation kind is one-to-many
exactly when `HasMany` is set. -/
theorem c2_relation_field_type (ef : ExtraField) :
    (genRelationField ef).fieldType =
      (let base := localTypeToken ef.structPropType
       let base := if ef.pointer then "*" ++ base else base
       if ef.hasMany then "[]" ++ base else base)
    ∧ ((genRelationField ef).relation = RelationKind.hasMany ↔ ef.hasMany = true)
    ∧ (genRelationField
        { structPropName := "Attachments", structPropType := "models.Attachment",
          fkStructPropName := "TicketID", refStructPropName := "TicketID",
          hasMany := true, pointer := true }).fieldType = "[]*Attachment" := by
  refine ⟨genRelationField_fieldType ef, ?_, by decide⟩
  simp only [genRelationField]
  cases ef.hasMany <;> simp

/-- C8 counterexample: for the malformed fully-qualified type `"models."`
(no local segment after the last separator), synthesis does not use the
full string as-is; the base type name becomes the empty string instead of
the claimed full string. -/
theorem c8_counterexample :
    (genRelationField
      { structPropName := "X", structPropType := "models.",
        fkStructPropName := "", refStructPropName := "",
        hasMany := false, pointer := false }).fieldType ≠ "models." := by
  decide

/-- C8 amended: synthesis is total (never fatal); the empty string and any
string containing no separator degrade to the full string as-is as the
base type name, while a string ending in the separator (no local segment
after the last separator) degrades to the empty base type name, not to the
full string. -/
theorem c8_malformed_type_degrades (ef : ExtraField) :
    (ef.structPropType = "" → ef.hasMany = false → ef.pointer = false →
      (genRelationField ef).fieldType = "")
    ∧ (('.' ∈ ef.structPropType.data → False) → ef.hasMany = false → ef.pointer = false →
      (genRelationField ef).fieldType = ef.structPropType)
    ∧ (∀ pre, ef.structPropType = pre ++ "." → ef.hasMany = false → ef.pointer = false →
      (genRelationField ef).fieldType = "") := by
  have hc := genRelationField_fieldType ef
  refine ⟨?_, ?_, ?_⟩
  · intro hs hm hp
    rw [hc]
    simp [hm, hp, localTypeToken, hs]
  · intro hnot hm hp
    rw [hc]
    have hall : ∀ a ∈ ef.structPropType.data.reverse, notDot a = true := by
      intro a ha
      exact notDot_eq_true (fun hac => hnot (hac ▸ List.mem_reverse.mp ha))
    have htw := takeWhile_append_of_all notDot ef.structPropType.data.reverse [] hall
    simp only [List.takeWhile_nil, List.append_nil] at htw
    have hloc : localTypeToken ef.structPropType = ef.structPropType := by
      simp only [localTypeToken, htw, List.reverse_reverse]
    simp [hm, hp, hloc]
  · intro pre hs hm hp
    rw [hc]
    have hends : ef.structPropType.data = pre.data ++ ['.'] := by
      rw [hs]
      simp [String.data_append]
    have hloc : localTypeToken ef.structPropType = "" := by
      simp only [localTypeToken, hends, List.reverse_append, List.reverse_singleton]
      simp [List.takeWhile, notDot_eq_false]
    simp [hm, hp, hloc]

/-- The built-in PostgreSQL default mapping `pgtypes.PgTypeMap` from the
source, entry for entry. -/
def PgTypeMap : List (String × String) := [
  ("text[]", "pgtypes.StringArray"),
  ("varchar[]", "pgtypes.StringArray"),
  ("integer[]", "pgtypes.Int32Array"),
  ("int4[]", "pgtypes.Int32Array"),
  ("int8[]", "pgtypes.Int64Array"),
  ("bigint[]", "pgtypes.Int64Array"),
  ("bool[]", "pgtypes.BoolArray"),
  ("boolean[]", "pgtypes.BoolArray"),
  ("uuid[]", "pgtypes.UUIDArray"),
  ("float8[]", "pgtypes.Float64Array"),
  ("double precision[]", "pgtypes.Float64Array"),
  ("timestamptz[]", "pgtypes.TimeArray"),
  ("timestamp[]", "pgtypes.TimeArray"),
  ("timestamp with time zone[]", "pgtypes.TimeArray"),
  ("timestamp without time zone[]", "pgtypes.TimeArray"),
  ("interval", "pgtypes.Duration"),
  ("interval[]", "pgtypes.DurationArray"),
  ("bool", "bool"),
  ("int2", "int16"),
  ("int4", "int32"),
  ("int8", "int64"),
  ("float4", "float32"),
  ("float8", "float64"),
  ("numeric", "string"),
  ("text", "string"),
  ("varchar", "string"),
  ("bpchar", "string"),
  ("char", "string"),
  ("name", "string"),
  ("bytea", "[]byte"),
  ("uuid", "uuid.UUID"),
  ("json", "json.RawMessage"),
  ("jsonb", "json.RawMessage"),
  ("xml", "string"),
  ("date", "time.Time"),
  ("timestamp", "time.Time"),
  ("timestamptz", "time.Time"),
  ("time", "string"),
  ("timetz", "string"),
  ("inet", "net.IPNet"),
  ("cidr", "net.IPNet"),
  ("macaddr", "net.HardwareAddr"),
  ("macaddr8", "net.HardwareAddr"),
  ("bit", "string"),
  ("varbit", "string"),
  ("tsvector", "string"),
  ("tsquery", "string"),
  ("oid", "uint32"),
  ("regclass", "uint32"),
  ("regproc", "uint32"),
  ("regprocedure", "uint32"),
  ("regtype", "uint32"),
  ("regrole", "uint32"),
  ("regnamespace", "uint32"),
  ("regconfig", "uint32"),
  ("regdictionary", "uint32"),
  ("pg_lsn", "string"),
  ("txid_snapshot", "string"),
  ("point", "string"),
  ("line", "string"),
  ("lseg", "string"),
  ("box", "string"),
  ("path", "string"),
  ("polygon", "string"),
  ("circle", "string"),
  ("int4range", "string"),
  ("int8range", "string"),
  ("numrange", "string"),
  ("tsrange", "string"),
  ("tstzrange", "string"),
  ("daterange", "string"),
  ("int4multirange", "string"),
  ("int8multirange", "string"),
  ("nummultirange", "string"),
  ("tsmultirange", "string"),
  ("tstzmultirange", "string"),
  ("datemultirange", "string"),
  ("money", "string")]

/-- The per-type hook closure `f(def)` built in `postgresToGorm`: given the
column type string reported by `columnType.ColumnType()` (`none` models
`ok = false`), look it up in `DomainTypeMap`, then in `TypeMap`, and fall
back to the hook's built-in default. -/
def dataTypeHook (domainTypeMap typeMap : List (String × String)) (defGoType : String)
    (colType : Option String) : String :=
  match colType with
  | some ct =>
    match lookupKV domainTypeMap ct with
    | some domain => domain
    | none =>
      match lookupKV typeMap ct with
      | some pt => pt
      | none => defGoType
  | none => defGoType

/-- Type resolution as wired by `postgresToGorm`: the loop over
`pgtypes.PgTypeMap` registers a hook only for each key of `PgTypeMap`
(`dtMaps[pgTypeSTr] = f(goTypeStr)`), so a database type name outside
`PgTypeMap` has no hook at all and is left to the external generator's
own inference (modelled as `none`).  `dbTypeName` is the database type
name the generator uses to select the hook; `colType` is the string
reported by `columnType.ColumnType()` inside the hook. -/
def resolveDataType (domainTypeMap typeMap : List (String × String))
    (dbTypeName : String) (colType : Option String) : Option String :=
  match lookupKV PgTypeMap dbTypeName with
  | some defGoType => some (dataTypeHook domainTypeMap typeMap defGoType colType)
  | none => none

/-- The claim's stated precedence, followed word for word: DomainTypeMap
first, then TypeMap, then the dialect built-in default, and generator
inference (`none`) only when the column type is absent from all three. -/
def claimedResolveDataType (domainTypeMap typeMap : List (String × String))
    (colType : String) : Option String :=
  match lookupKV domainTypeMap colType with
  | some domain => some domain
  | none =>
    match lookupKV typeMap colType with
    | some pt => some pt
    | none => lookupKV PgTypeMap colType

/-- C1 counterexample: a column type present in `DomainTypeMap` but absent
from the built-in `PgTypeMap` has no registered hook, so the code falls
through to generator inference, while the claimed precedence would return
the `DomainTypeMap` value. -/
theorem c1_counterexample :
    resolveDataType [("citext", "string")] [] "citext" (some "citext") = none
    ∧ claimedResolveDataType [("citext", "string")] [] "citext" = some "string" := by
  constructor <;> rfl

/-- C1 amended: the claimed three-layer precedence (DomainTypeMap over
TypeMap over built-in default, with generator inference last) holds
exactly for column types that are keys of the built-in `PgTypeMap`; for a
column type with no `PgTypeMap` entry no hook is registered and the
generator's own inference applies even when `DomainTypeMap` or `TypeMap`
contains the type. -/
theorem c1_resolution_layers (domainTypeMap typeMap : List (String × String))
    (colType : String) :
    (lookupKV PgTypeMap colType ≠ none →
      resolveDataType domainTypeMap typeMap colType (some colType) =
        claimedResolveDataType domainTypeMap typeMap colType)
    ∧ (lookupKV PgTypeMap colType = none →
      resolveDataType domainTypeMap typeMap colType (some colType) = none) := by
  constructor
  · intro hk
    cases hpg : lookupKV PgTypeMap colType with
    | none => exact absurd hpg hk
    | some defGoType =>
      simp only [resolveDataType, claimedResolveDataType, dataTypeHook, hpg]
      cases lookupKV domainTypeMap colType with
      | some domain => rfl
      | none =>
        cases lookupKV typeMap colType with
        | some pt => rfl
        | none => rfl
  · intro hk
    simp only [resolveDataType, hk]

/-- C1 witness: for the `jsonb` column type with the merged default user
map, the two readings agree and both select the `TypeMap` value. -/
theorem c1_resolution_layers_witness :
    resolveDataType [] [("jsonb", "datatypes.JSONMap")] "jsonb" (some "jsonb") =
      claimedResolveDataType [] [("jsonb", "datatypes.JSONMap")] "jsonb" :=
  (c1_resolution_layers [] [("jsonb", "datatypes.JSONMap")] "jsonb").1 (by decide)

/-- The startup merge loop from `main`: for every key of the built-in
defaults absent from the user map, insert the built-in value; keys already
present are left untouched.  Insertion into a Go map is modelled as
appending the pair, which has the same lookup semantics. -/
def mergeDefaults (userMap builtinDefaults : List (String × String)) :
    List (String × String) :=
  builtinDefaults.foldl
    (fun acc kv =>
      match lookupKV acc kv.1 with
      | some _ => acc
      | none => acc ++ [kv])
    userMap

/-- The built-in `conversionConfig.TypeMap` defaults from the source. -/
def defaultTypeMap : List (String × String) :=
  [("jsonb", "datatypes.JSONMap"), ("uuid", "datatypes.UUID")]

/-- The built-in `conversionConfig.DomainTypeMap` defaults (none). -/
def defaultDomainTypeMap : List (String × String) := []

/-- The built-in `conversionConfig.ImportPackagePaths` defaults. -/
def defaultImportPackagePaths : List String :=
  ["github.com/dan-sherwin/gormdb2struct/pgtypes"]

/-- The import-path merge from `main`: append the missing built-in entries
while preserving order, judged against a snapshot of the user's list. -/
def mergeImportPaths (userPaths builtinPaths : List String) : List String :=
  userPaths ++ builtinPaths.filter (fun p => decide (p ∉ userPaths))

theorem lookupKV_append {α : Type} (l1 l2 : List (String × α)) (k : String) :
    lookupKV (l1 ++ l2) k =
      (match lookupKV l1 k with
       | some v => some v
       | none => lookupKV l2 k) := by
  induction l1 with
  | nil => simp [lookupKV]
  | cons kv rest ih =>
    by_cases hk : kv.1 = k
    · simp [lookupKV, hk]
    · simp only [List.cons_append, lookupKV, if_neg hk]
      exact ih

theorem lookupKV_mergeDefaults (builtinDefaults userMap : List (String × String))
    (k : String) :
    lookupKV (mergeDefaults userMap builtinDefaults) k =
      (match lookupKV userMap k with
       | some v => some v
       | none => lookupKV builtinDefaults k) := by
  induction builtinDefaults generalizing userMap with
  | nil =>
    simp only [mergeDefaults, List.foldl_nil, lookupKV]
    cases lookupKV userMap k <;> rfl
  | cons kv rest ih =>
    obtain ⟨k1, v1⟩ := kv
    have hstep : mergeDefaults userMap ((k1, v1) :: rest) =
        mergeDefaults
          (match lookupKV userMap k1 with
           | some _ => userMap
           | none => userMap ++ [(k1, v1)]) rest := rfl
    rw [hstep, ih]
    cases hu : lookupKV userMap k1 with
    | some v =>
      simp only []
      by_cases hk : k1 = k
      · subst hk
        rw [hu]
      · cases hx : lookupKV userMap k with
        | some v2 => simp [hx]
        | none => simp [hx, lookupKV, if_neg hk]
    | none =>
      simp only [lookupKV_append]
      by_cases hk : k1 = k
      · subst hk
        rw [hu]
        simp [lookupKV]
      · cases hx : lookupKV userMap k with
        | some v2 => simp [hx]
        | none => simp [hx, lookupKV, if_neg hk]

theorem lookupKV_isSome_of_mem {α : Type} (l : List (String × α)) (kv : String × α)
    (h : kv ∈ l) : lookupKV l kv.1 ≠ none := by
  induction l with
  | nil => cases h
  | cons x rest ih =>
    by_cases hx : x.1 = kv.1
    · simp [lookupKV, hx]
    · rcases List.mem_cons.mp h with rfl | hmem
      · exact absurd rfl hx
      · simp only [lookupKV, if_neg hx]
        exact ih hmem

theorem mergeDefaults_of_present (builtinDefaults acc : List (String × String))
    (h : ∀ kv ∈ builtinDefaults, lookupKV acc kv.1 ≠ none) :
    mergeDefaults acc builtinDefaults = acc := by
  induction builtinDefaults generalizing acc with
  | nil => rfl
  | cons kv rest ih =>
    have hkv := h kv (by simp)
    simp only [mergeDefaults, List.foldl_cons]
    cases hu : lookupKV acc kv.1 with
    | none => exact absurd hu hkv
    | some v =>
      have := ih acc (fun kv2 hm => h kv2 (by simp [hm]))
      simpa [mergeDefaults] using this

/-- C3: the startup merge of built-in defaults inserts a built-in value
only for keys absent from the user map — so a user-provided value always
wins on conflicting keys — and merging a second time changes nothing
(idempotence). -/
theorem c3_merge_user_wins_idempotent (userMap builtinDefaults : List (String × String)) :
    (∀ k, lookupKV (mergeDefaults userMap builtinDefaults) k =
      (match lookupKV userMap k with
       | some v => some v
       | none => lookupKV builtinDefaults k))
    ∧ mergeDefaults (mergeDefaults userMap builtinDefaults) builtinDefaults =
        mergeDefaults userMap builtinDefaults := by
  constructor
  · intro k
    exact lookupKV_mergeDefaults builtinDefaults userMap k
  · apply mergeDefaults_of_present
    intro kv hm
    rw [lookupKV_mergeDefaults]
    cases hu : lookupKV userMap kv.1 with
    | some v => simp
    | none =>
      simp only []
      exact lookupKV_isSome_of_mem builtinDefaults kv hm

/-- The parts of a generated `gen.Field` visible to the JSON-tag override
pass: the resolved field name, the underlying column name, the declared
type and the current JSON tag. -/
structure GenField where
  name : String
  columnName : String
  fieldType : String
  jsonTag : String
deriving DecidableEq, Repr

/-- The per-field body of the override loop in `postgresToGorm`: a match
on the column name replaces the JSON tag, otherwise a match on the field
name replaces it, otherwise the field is left untouched.  The in-place
`f.Tag.Set("json", jsonTag)` mutation is modelled by returning an updated
field. -/
def overrideJsonTag (overrides : List (String × String)) (f : GenField) : GenField :=
  match lookupKV overrides f.columnName with
  | some jsonTag => { f with jsonTag := jsonTag }
  | none =>
    match lookupKV overrides f.name with
    | some jsonTag => { f with jsonTag := jsonTag }
    | none => f

/-- The per-table override block: it runs only when
`JsonTagOverridesByTable` has an entry for the table, and then visits
every field of the already-generated model. -/
def applyJsonTagOverrides (jsonTagOverridesByTable : List (String × List (String × String)))
    (tableName : String) (fields : List GenField) : List GenField :=
  match lookupKV jsonTagOverridesByTable tableName with
  | some overrides => fields.map (overrideJsonTag overrides)
  | none => fields

/-- C4: for a table with an override map, every field is visited; a field
whose column name is a key receives that override, a field whose column
name misses but whose field name is a key receives that override (so the
column-name match takes precedence), a field matching neither key is left
entirely unchanged, and the override never alters anything but the JSON
tag. -/
theorem c4_tag_override (jsonTagOverridesByTable : List (String × List (String × String)))
    (tableName : String) (overrides : List (String × String)) (fields : List GenField)
    (hov : lookupKV jsonTagOverridesByTable tableName = some overrides) :
    applyJsonTagOverrides jsonTagOverridesByTable tableName fields =
      fields.map (overrideJsonTag overrides)
    ∧ (∀ f v, lookupKV overrides f.columnName = some v →
        (overrideJsonTag overrides f).jsonTag = v)
    ∧ (∀ f v, lookupKV overrides f.columnName = none →
        lookupKV overrides f.name = some v → (overrideJsonTag overrides f).jsonTag = v)
    ∧ (∀ f, lookupKV overrides f.columnName = none →
        lookupKV overrides f.name = none → overrideJsonTag overrides f = f)
    ∧ (∀ f, (overrideJsonTag overrides f).name = f.name
        ∧ (overrideJsonTag overrides f).columnName = f.columnName
        ∧ (overrideJsonTag overrides f).fieldType = f.fieldType) := by
  refine ⟨?_, ?_, ?_, ?_, ?_⟩
  · simp [applyJsonTagOverrides, hov]
  · intro f v hcol
    simp [overrideJsonTag, hcol]
  · intro f v hcol hname
    simp [overrideJsonTag, hcol, hname]
  · intro f hcol hname
    simp [overrideJsonTag, hcol, hname]
  · intro f
    simp only [overrideJsonTag]
    cases lookupKV overrides f.columnName with
    | some t => exact ⟨rfl, rfl, rfl⟩
    | none =>
      cases lookupKV overrides f.name with
      | some t => exact ⟨rfl, rfl, rfl⟩
      | none => exact ⟨rfl, rfl, rfl⟩

/-- C4 witness: with the override map of table `t` sending column `col_x`
to `-`, the field whose column name is `col_x` receives JSON tag `-`, and
a field matching no key keeps its derived tag. -/
theorem c4_tag_override_witness :
    applyJsonTagOverrides [("t", [("col_x", "-")])] "t"
        [{ name := "SubjectFts", columnName := "col_x", fieldType := "string",
           jsonTag := "subjectFts" },
         { name := "Subject", columnName := "subject", fieldType := "string",
           jsonTag := "subject" }] =
      [{ name := "SubjectFts", columnName := "col_x", fieldType := "string",
         jsonTag := "subjectFts" },
       { name := "Subject", columnName := "subject", fieldType := "string",
         jsonTag := "subject" }].map (overrideJsonTag [("col_x", "-")])
    ∧ (overrideJsonTag [("col_x", "-")]
        { name := "SubjectFts", columnName := "col_x", fieldType := "string",
          jsonTag := "subjectFts" }).jsonTag = "-"
    ∧ overrideJsonTag [("col_x", "-")]
        { name := "Subject", columnName := "subject", fieldType := "string",
          jsonTag := "subject" } =
      { name := "Subject", columnName := "subject", fieldType := "string",
        jsonTag := "subject" } := by
  have h := c4_tag_override [("t", [("col_x", "-")])] "t" [("col_x", "-")]
    [{ name := "SubjectFts", columnName := "col_x", fieldType := "string",
       jsonTag := "subjectFts" },
     { name := "Subject", columnName := "subject", fieldType := "string",
       jsonTag := "subject" }] (by decide)
  exact ⟨h.1,
    h.2.1 { name := "SubjectFts", columnName := "col_x", fieldType := "string",
            jsonTag := "subjectFts" } "-" (by decide),
    h.2.2.2.1 { name := "Subject", columnName := "subject", fieldType := "string",
                jsonTag := "subject" } (by decide) (by decide)⟩

/-- `DatabaseDialect` constant `POSTGRESQL` from the source. -/
def POSTGRESQL : String := "postgresql"

/-- `DatabaseDialect` constant `SQLITE` from the source. -/
def SQLITE : String := "sqlite"

/-- Go `strings.TrimSpace`, modelled over the character list: leading and
trailing whitespace removed.  (Go trims by Unicode whitespace; the claims
only need that all-whitespace strings trim to the empty string.) -/
def trimSpace (s : String) : String :=
  String.mk (((s.data.dropWhile Char.isWhitespace).reverse.dropWhile Char.isWhitespace).reverse)

/-- `ConversionConfig` from the source.  `NamingStrategy` (an external
`gorm` schema type with no decision logic of its own in this repository)
is omitted; maps are carried as association lists. -/
structure ConversionConfig where
  databaseDialect : String
  outPath : String
  outPackagePath : String
  importPackagePaths : List String
  tables : Option (List String)
  materializedViews : Option (List String)
  jsonTagOverridesByTable : List (String × List (String × String))
  extraFields : List (String × List ExtraField)
  typeMap : List (String × String)
  domainTypeMap : List (String × String)
  cleanUp : Bool
  generateDbInit : Bool
  includeAutoMigrate : Bool
  dbHost : String
  dbPort : Int
  dbName : String
  dbUser : String
  dbPassword : String
  dbSSLMode : Bool
  sqlitedbpath : String
deriving Repr

/-- The outcome of `main` after the TOML config has been decoded: either a
`usage(2, msg)` exit — which happens before any database connection or
file work — or a dispatch to the dialect conversion function, which is
where all database and output-file work lives. -/
inductive MainOutcome where
  | usageExit (exitCode : Nat) (errMsg : String)
  | runPostgres (cfg : ConversionConfig)
  | runSqlite (cfg : ConversionConfig)
deriving Repr

/-- The merge-validate-dispatch tail of `main` (everything after the TOML
decode): merge built-in defaults into the maps and import paths, validate
`OutPath`, the dialect, the PostgreSQL connection fields (after the port
default) and the SQLite path, then dispatch to `postgresToGorm` or
`sqliteToGorm`. -/
def validateAndDispatch (cfg0 : ConversionConfig) : MainOutcome :=
  let cfg := { cfg0 with
    typeMap := mergeDefaults cfg0.typeMap defaultTypeMap
    domainTypeMap := mergeDefaults cfg0.domainTypeMap defaultDomainTypeMap
    importPackagePaths := mergeImportPaths cfg0.importPackagePaths defaultImportPackagePaths }
  if trimSpace cfg.outPath = "" then
    MainOutcome.usageExit 2 "configuration error: OutPath is required"
  else if cfg.databaseDialect ≠ POSTGRESQL ∧ cfg.databaseDialect ≠ SQLITE then
    MainOutcome.usageExit 2 "configuration error: DatabaseDialect must be 'postgresql' or 'sqlite'"
  else if cfg.databaseDialect = POSTGRESQL then
    let cfg := if cfg.dbPort = 0 then { cfg with dbPort := 5432 } else cfg
    if trimSpace cfg.dbHost = "" then
      MainOutcome.usageExit 2 "configuration error: DbHost is required for postgresql dialect"
    else if trimSpace cfg.dbName = "" then
      MainOutcome.usageExit 2 "configuration error: DbName is required for postgresql dialect"
    else
      MainOutcome.runPostgres cfg
  else
    if trimSpace cfg.sqlitedbpath = "" then
      MainOutcome.usageExit 2 "configuration error: Sqlitedbpath is required for sqlite dialect"
    else
      MainOutcome.runSqlite cfg

/-- C9: every configuration missing a required field (OutPath; DbHost or
DbName for postgresql; Sqlitedbpath for sqlite) or naming an invalid
dialect makes `main` exit through `usage` with status 2 — non-zero — and
never reach the dialect conversion functions, which hold all database and
output-file work. -/
theorem c9_config_validation_exits (cfg : ConversionConfig)
    (hbad : trimSpace cfg.outPath = ""
      ∨ (cfg.databaseDialect ≠ POSTGRESQL ∧ cfg.databaseDialect ≠ SQLITE)
      ∨ (cfg.databaseDialect = POSTGRESQL ∧
          (trimSpace cfg.dbHost = "" ∨ trimSpace cfg.dbName = ""))
      ∨ (cfg.databaseDialect = SQLITE ∧ trimSpace cfg.sqlitedbpath = "")) :
    ∃ errMsg, validateAndDispatch cfg = MainOutcome.usageExit 2 errMsg ∧ (2 : Nat) ≠ 0 := by
  simp only [validateAndDispatch]
  by_cases hout : trimSpace cfg.outPath = ""
  · exact ⟨"configuration error: OutPath is required", by simp [hout], by decide⟩
  · by_cases hdia : cfg.databaseDialect ≠ POSTGRESQL ∧ cfg.databaseDialect ≠ SQLITE
    · refine ⟨"configuration error: DatabaseDialect must be 'postgresql' or 'sqlite'",
        ?_, by decide⟩
      rw [if_neg hout, if_pos hdia]
    · rcases hbad with h | h | ⟨hpg, hconn⟩ | ⟨hsq, hpath⟩
      · exact absurd h hout
      · exact absurd h hdia
      · by_cases hport : cfg.dbPort = 0
        · by_cases hhost : trimSpace cfg.dbHost = ""
          · exact ⟨"configuration error: DbHost is required for postgresql dialect",
              by simp [hout, hpg, hport, hhost], by decide⟩
          · rcases hconn with h | hname
            · exact absurd h hhost
            · exact ⟨"configuration error: DbName is required for postgresql dialect",
                by simp [hout, hpg, hport, hhost, hname], by decide⟩
        · by_cases hhost : trimSpace cfg.dbHost = ""
          · exact ⟨"configuration error: DbHost is required for postgresql dialect",
              by simp [hout, hpg, hport, hhost], by decide⟩
          · rcases hconn with h | hname
            · exact absurd h hhost
            · exact ⟨"configuration error: DbName is required for postgresql dialect",
                by simp [hout, hpg, hport, hhost, hname], by decide⟩
      · have hnotpg : ¬ cfg.databaseDialect = POSTGRESQL := by
          rw [hsq]
          simp [SQLITE, POSTGRESQL]
        exact ⟨"configuration error: Sqlitedbpath is required for sqlite dialect",
          by simp [hout, hnotpg, hpath, hdia, hsq, POSTGRESQL, SQLITE], by decide⟩

/-- C9 witness: a postgresql configuration with an empty DbHost exits with
status 2 before dispatch. -/
theorem c9_config_validation_exits_witness :
    ∃ errMsg,
      validateAndDispatch
        { databaseDialect := "postgresql", outPath := "./generated",
          outPackagePath := "", importPackagePaths := [], tables := none,
          materializedViews := none, jsonTagOverridesByTable := [],
          extraFields := [], typeMap := [], domainTypeMap := [],
          cleanUp := false, generateDbInit := false, includeAutoMigrate := false,
          dbHost := "", dbPort := 0, dbName := "mydb", dbUser := "",
          dbPassword := "", dbSSLMode := false, sqlitedbpath := "" } =
        MainOutcome.usageExit 2 errMsg ∧ (2 : Nat) ≠ 0 :=
  c9_config_validation_exits _ (Or.inr (Or.inr (Or.inl ⟨rfl, Or.inl (by decide)⟩)))

/-- Go `strconv.Atoi`: an optional sign followed by at least one decimal
digit; `none` models a parse error.  (Go additionally errors on 64-bit
overflow, which is immaterial to the claims settled here.) -/
def goAtoi (s : String) : Option Int :=
  match s.data with
  | [] => none
  | c :: rest =>
    let signDigits : Int × List Char :=
      if c = '-' then (-1, rest) else if c = '+' then (1, rest) else (1, c :: rest)
    if signDigits.2 = [] then none
    else if signDigits.2.all Char.isDigit then
      some (signDigits.1 *
        (signDigits.2.foldl (fun acc d => acc * 10 + (d.toNat - '0'.toNat)) 0 : Nat))
    else none

/-- The connection parameters `postgresToGorm` feeds into the DSN. -/
structure PgConnParams where
  dbHost : String
  dbPort : Int
  dbName : String
  dbUser : String
  dbPassword : String
deriving DecidableEq, Repr

/-- The environment-fallback block at the top of `postgresToGorm` (before
the DSN is built).  `env` models `os.Getenv`, which returns the empty
string for an unset variable; `none` models `log.Fatal` (unparsable
`DB_PORT`, or no database name from either source). -/
def resolveConnParams (cfg : ConversionConfig) (env : String → String) :
    Option PgConnParams :=
  let dbHost :=
    if cfg.dbHost = "" then
      (if env "DB_HOST" = "" then "localhost" else env "DB_HOST")
    else cfg.dbHost
  match (if cfg.dbPort = 0 then
          (if env "DB_PORT" = "" then some (5432 : Int) else goAtoi (env "DB_PORT"))
         else some cfg.dbPort) with
  | none => none
  | some dbPort =>
    match (if cfg.dbName = "" then
            (if env "DB_NAME" = "" then none else some (env "DB_NAME"))
           else some cfg.dbName) with
    | none => none
    | some dbName =>
      some { dbHost := dbHost, dbPort := dbPort, dbName := dbName,
             dbUser := if cfg.dbUser = "" then env "DB_USER" else cfg.dbUser,
             dbPassword := if cfg.dbPassword = "" then env "DB_PASSWORD" else cfg.dbPassword }

/-- C10: whenever a postgresql connection parameter is empty in the
configuration it is filled from the corresponding environment variable
(DB_HOST, DB_PORT, DB_NAME, DB_USER, DB_PASSWORD) before the DSN is
built, with DbHost further defaulting to localhost and DbPort to 5432
when the environment variable is also unset — so credentials can come
from the environment rather than the config file.  The resolution
succeeds whenever a database name is available from either source and any
set DB_PORT override parses. -/
theorem c10_env_fallback (cfg : ConversionConfig) (env : String → String)
    (hname : ¬ (cfg.dbName = "" ∧ env "DB_NAME" = ""))
    (hport : cfg.dbPort ≠ 0 ∨ env "DB_PORT" = "" ∨ goAtoi (env "DB_PORT") ≠ none) :
    ∃ p, resolveConnParams cfg env = some p
      ∧ p.dbHost = (if cfg.dbHost = "" then
          (if env "DB_HOST" = "" then "localhost" else env "DB_HOST") else cfg.dbHost)
      ∧ p.dbPort = (if cfg.dbPort = 0 then
          (if env "DB_PORT" = "" then 5432 else (goAtoi (env "DB_PORT")).getD 0)
          else cfg.dbPort)
      ∧ p.dbName = (if cfg.dbName = "" then env "DB_NAME" else cfg.dbName)
      ∧ p.dbUser = (if cfg.dbUser = "" then env "DB_USER" else cfg.dbUser)
      ∧ p.dbPassword = (if cfg.dbPassword = "" then env "DB_PASSWORD" else cfg.dbPassword) := by
  have hnm : (if cfg.dbName = "" then
      (if env "DB_NAME" = "" then none else some (env "DB_NAME"))
      else some cfg.dbName) =
      some (if cfg.dbName = "" then env "DB_NAME" else cfg.dbName) := by
    by_cases h1 : cfg.dbName = ""
    · have h2 : ¬ env "DB_NAME" = "" := fun h2 => hname ⟨h1, h2⟩
      simp [h1, h2]
    · simp [h1]
  have hpt : (if cfg.dbPort = 0 then
      (if env "DB_PORT" = "" then some (5432 : Int) else goAtoi (env "DB_PORT"))
      else some cfg.dbPort) =
      some (if cfg.dbPort = 0 then
        (if env "DB_PORT" = "" then 5432 else (goAtoi (env "DB_PORT")).getD 0)
        else cfg.dbPort) := by
    by_cases h1 : cfg.dbPort = 0
    · by_cases h2 : env "DB_PORT" = ""
      · simp [h1, h2]
      · have h3 : goAtoi (env "DB_PORT") ≠ none := by
          rcases hport with h | h | h
          · exact absurd h1 h
          · exact absurd h h2
          · exact h
        cases hat : goAtoi (env "DB_PORT") with
        | none => exact absurd hat h3
        | some v => simp [h1, h2, hat]
    · simp [h1]
  refine ⟨⟨(if cfg.dbHost = "" then
        (if env "DB_HOST" = "" then "localhost" else env "DB_HOST") else cfg.dbHost),
      (if cfg.dbPort = 0 then
        (if env "DB_PORT" = "" then 5432 else (goAtoi (env "DB_PORT")).getD 0)
        else cfg.dbPort),
      (if cfg.dbName = "" then env "DB_NAME" else cfg.dbName),
      (if cfg.dbUser = "" then env "DB_USER" else cfg.dbUser),
      (if cfg.dbPassword = "" then env "DB_PASSWORD" else cfg.dbPassword)⟩,
    ?_, rfl, rfl, rfl, rfl, rfl⟩
  simp only [resolveConnParams, hpt, hnm]

/-- C10 witness: with an empty host, port, name, user and password in the
config and DB_NAME, DB_USER, DB_PASSWORD set in the environment (DB_HOST
and DB_PORT unset), the resolved parameters are localhost, 5432 and the
environment values. -/
theorem c10_env_fallback_witness :
    ∃ p,
      resolveConnParams
        { databaseDialect := "postgresql", outPath := "./generated",
          outPackagePath := "", importPackagePaths := [], tables := none,
          materializedViews := none, jsonTagOverridesByTable := [],
          extraFields := [], typeMap := [], domainTypeMap := [],
          cleanUp := false, generateDbInit := false, includeAutoMigrate := false,
          dbHost := "", dbPort := 0, dbName := "", dbUser := "",
          dbPassword := "", dbSSLMode := false, sqlitedbpath := "" }
        (fun v => if v = "DB_NAME" then "mydb"
          else if v = "DB_USER" then "bob"
          else if v = "DB_PASSWORD" then "hunter2" else "")
      = some p
      ∧ p.dbHost = (if ("" : String) = "" then
          (if (if ("DB_HOST" : String) = "DB_NAME" then "mydb"
            else if ("DB_HOST" : String) = "DB_USER" then "bob"
            else if ("DB_HOST" : String) = "DB_PASSWORD" then "hunter2" else "") = ""
           then "localhost"
           else (if ("DB_HOST" : String) = "DB_NAME" then "mydb"
            else if ("DB_HOST" : String) = "DB_USER" then "bob"
            else if ("DB_HOST" : String) = "DB_PASSWORD" then "hunter2" else ""))
          else "")
      ∧ p.dbPort = (if (0 : Int) = 0 then
          (if (if ("DB_PORT" : String) = "DB_NAME" then "mydb"
            else if ("DB_PORT" : String) = "DB_USER" then "bob"
            else if ("DB_PORT" : String) = "DB_PASSWORD" then "hunter2" else "") = ""
           then 5432
           else (goAtoi (if ("DB_PORT" : String) = "DB_NAME" then "mydb"
            else if ("DB_PORT" : String) = "DB_USER" then "bob"
            else if ("DB_PORT" : String) = "DB_PASSWORD" then "hunter2" else "")).getD 0)
          else (0 : Int))
      ∧ p.dbName = (if ("" : String) = "" then
          (if ("DB_NAME" : String) = "DB_NAME" then "mydb"
            else if ("DB_NAME" : String) = "DB_USER" then "bob"
            else if ("DB_NAME" : String) = "DB_PASSWORD" then "hunter2" else "")
          else "")
      ∧ p.dbUser = (if ("" : String) = "" then
          (if ("DB_USER" : String) = "DB_NAME" then "mydb"
            else if ("DB_USER" : String) = "DB_USER" then "bob"
            else if ("DB_USER" : String) = "DB_PASSWORD" then "hunter2" else "")
          else "")
      ∧ p.dbPassword = (if ("" : String) = "" then
          (if ("DB_PASSWORD" : String) = "DB_NAME" then "mydb"
            else if ("DB_PASSWORD" : String) = "DB_USER" then "bob"
            else if ("DB_PASSWORD" : String) = "DB_PASSWORD" then "hunter2" else "")
          else "") :=
  c10_env_fallback _ _ (by decide) (Or.inr (Or.inl (by decide)))

/-- Database-side operations of the materialized-view snapshot loop in
`postgresToGorm`, plus the `log.Fatal` exit (`fatalExit`), which calls
`os.Exit` and therefore skips all deferred statements. -/
inductive DbOp where
  | dropViewIfExists (name : String)
  | createView (name source : String)
  | reflectModel (source : String)
  | dropView (name : String)
  | fatalExit
deriving DecidableEq, Repr

/-- The materialized-view loop of `postgresToGorm` as the sequence of
database operations it issues.  Per view: an unconditional
`drop view if exists <v>_temp` whose result is discarded (`dropOk` is
consulted and ignored, mirroring `_, _ = sqldb.Query(...)`), then
`create view <v>_temp as select * from <v>`; on creation failure
(`createOk` false) the run ends in `log.Fatal`, which skips the deferred
drops; on success a `drop view <v>_temp` is pushed onto the defer stack
and `GenerateModelAs` reflects the temp view.  After the loop
(`ApplyBasic`, `Execute`, `generatePostgresDbInit`), a later fatal error
(`laterFatal`) also ends the run through `log.Fatal` before any deferred
drop executes; otherwise the deferred drops run in LIFO order at function
exit. -/
def matViewLoop (dropOk createOk : String → Bool) (laterFatal : Bool) :
    List String → List DbOp → List DbOp
  | [], defers => if laterFatal then [DbOp.fatalExit] else defers
  | viewName :: rest, defers =>
    let tmpViewName := viewName ++ "_temp"
    let _dropResult := dropOk tmpViewName
    DbOp.dropViewIfExists tmpViewName ::
      (if createOk tmpViewName then
        DbOp.createView tmpViewName viewName :: DbOp.reflectModel tmpViewName ::
          matViewLoop dropOk createOk laterFatal rest (DbOp.dropView tmpViewName :: defers)
      else
        [DbOp.fatalExit])

/-- The whole materialized-view section of a run: loop with an empty defer
stack. -/
def matViewRun (dropOk createOk : String → Bool) (laterFatal : Bool)
    (materializedViews : List String) : List DbOp :=
  matViewLoop dropOk createOk laterFatal materializedViews []

/-- Effect of one database operation on the set of views present in the
database.  `fatalExit` is always the last emitted operation, so it leaves
the state unchanged. -/
def applyDbOp (views : List String) : DbOp → List String
  | DbOp.dropViewIfExists n => views.filter (fun v => decide (v ≠ n))
  | DbOp.createView n _ => n :: views
  | DbOp.reflectModel _ => views
  | DbOp.dropView n => views.filter (fun v => decide (v ≠ n))
  | DbOp.fatalExit => views

/-- Run a sequence of database operations from an initial set of views. -/
def runDbOps (views : List String) (ops : List DbOp) : List String :=
  ops.foldl applyDbOp views

theorem matViewLoop_all_ok (dropOk createOk : String → Bool) (views : List String)
    (defers : List DbOp) (h : ∀ v ∈ views, createOk (v ++ "_temp") = true) :
    matViewLoop dropOk createOk false views defers =
      (views.flatMap (fun v =>
        [DbOp.dropViewIfExists (v ++ "_temp"),
         DbOp.createView (v ++ "_temp") v,
         DbOp.reflectModel (v ++ "_temp")]))
      ++ (views.reverse.map (fun v => DbOp.dropView (v ++ "_temp"))) ++ defers := by
  induction views generalizing defers with
  | nil => simp [matViewLoop]
  | cons v rest ih =>
    have hv : createOk (v ++ "_temp") = true := h v (by simp)
    have hrest : ∀ w ∈ rest, createOk (w ++ "_temp") = true :=
      fun w hw => h w (by simp [hw])
    simp only [matViewLoop, hv, if_pos]
    rw [ih (DbOp.dropView (v ++ "_temp") :: defers) hrest]
    simp

theorem notMem_runDbOps_drops (l : List String) (s : List String) (t : String)
    (h : t ∈ l.map (fun v => v ++ "_temp") ∨ t ∉ s) :
    t ∉ runDbOps s (l.map (fun v => DbOp.dropView (v ++ "_temp"))) := by
  induction l generalizing s with
  | nil =>
    rcases h with h | h
    · simp at h
    · simpa [runDbOps] using h
  | cons v rest ih =>
    simp only [List.map_cons, runDbOps, List.foldl_cons]
    by_cases ht : t = v ++ "_temp"
    · apply ih
      right
      subst ht
      simp [applyDbOp]
    · apply ih
      rcases h with h | h
      · rcases List.mem_map.mp h with ⟨w, hw, hwt⟩
        rcases List.mem_cons.mp hw with rfl | hmem
        · exact absurd hwt.symm ht
        · exact Or.inl (List.mem_map.mpr ⟨w, hmem, hwt⟩)
      · right
        simp only [applyDbOp, List.mem_filter]
        intro hc
        exact h hc.1

theorem matViewLoop_dropOk_irrelevant (dropOk dropOk2 createOk : String → Bool)
    (laterFatal : Bool) (views : List String) (defers : List DbOp) :
    matViewLoop dropOk createOk laterFatal views defers =
      matViewLoop dropOk2 createOk laterFatal views defers := by
  induction views generalizing defers with
  | nil => rfl
  | cons v rest ih =>
    cases hcv : createOk (v ++ "_temp") with
    | true => simp [matViewLoop, hcv, ih]
    | false => simp [matViewLoop, hcv]

theorem fatalExit_mem_matViewLoop (dropOk createOk : String → Bool)
    (laterFatal : Bool) (views : List String) (defers : List DbOp)
    (hdef : DbOp.fatalExit ∉ defers) :
    (DbOp.fatalExit ∈ matViewLoop dropOk createOk laterFatal views defers ↔
      (∃ v ∈ views, createOk (v ++ "_temp") = false) ∨ laterFatal = true) := by
  induction views generalizing defers with
  | nil =>
    cases laterFatal with
    | true => simp [matViewLoop]
    | false => simp [matViewLoop, hdef]
  | cons v rest ih =>
    cases hv : createOk (v ++ "_temp") with
    | false =>
      simp only [matViewLoop, hv, Bool.false_eq_true, if_neg, List.mem_cons]
      constructor
      · intro _
        exact Or.inl ⟨v, by simp, hv⟩
      · intro _
        simp
    | true =>
      have hdef2 : DbOp.fatalExit ∉ DbOp.dropView (v ++ "_temp") :: defers := by
        simp only [List.mem_cons]
        rintro (h | h)
        · cases h
        · exact hdef h
      simp only [matViewLoop, hv, if_pos, List.mem_cons]
      rw [ih (DbOp.dropView (v ++ "_temp") :: defers) hdef2]
      constructor
      · rintro (h | h | h | h)
        · cases h
        · cases h
        · cases h
        · rcases h with ⟨w, hw, hf⟩ | h
          · exact Or.inl ⟨w, by simp [hw], hf⟩
          · exact Or.inr h
      · rintro (⟨w, hw, hf⟩ | h)
        · rcases hw with rfl | hmem
          · rw [hv] at hf
            cases hf
          · exact Or.inr (Or.inr (Or.inr (Or.inl ⟨w, hmem, hf⟩)))
        · exact Or.inr (Or.inr (Or.inr (Or.inr h)))

/-- C5 counterexample: one materialized view `mv1`, temp-view creation
succeeds, and a later step of the run fails (`log.Fatal` in
`generatePostgresDbInit`): the run ends through `os.Exit`, the deferred
drop never executes, and `mv1_temp` is still present in the database
after the run — contradicting the claim that the temp artifact is absent
even when a later step fails. -/
theorem c5_counterexample :
    "mv1_temp" ∈
      runDbOps ["mv1"]
        (matViewRun (fun _ => true) (fun _ => true) true ["mv1"]) := by
  decide

/-- C5 amended: for every materialized view the temp view `<name>_temp` is
created (directly after a drop-if-exists) before schema reflection, and
its removal is deferred to the end of model generation, so after a run
that completes without a fatal error every temp artifact is absent from
the database; on a fatal error `log.Fatal` exits the process and the
deferred drops are skipped (see the counterexample). -/
theorem c5_temp_view_lifecycle (dropOk createOk : String → Bool)
    (views : List String) (h : ∀ v ∈ views, createOk (v ++ "_temp") = true) :
    matViewRun dropOk createOk false views =
      (views.flatMap (fun v =>
        [DbOp.dropViewIfExists (v ++ "_temp"),
         DbOp.createView (v ++ "_temp") v,
         DbOp.reflectModel (v ++ "_temp")]))
      ++ (views.reverse.map (fun v => DbOp.dropView (v ++ "_temp")))
    ∧ ∀ v ∈ views, ∀ s0,
        (v ++ "_temp") ∉ runDbOps s0 (matViewRun dropOk createOk false views) := by
  have htrace := matViewLoop_all_ok dropOk createOk views [] h
  rw [List.append_nil] at htrace
  constructor
  · exact htrace
  · intro v hv s0
    rw [matViewRun, htrace, runDbOps, List.foldl_append]
    apply notMem_runDbOps_drops
    left
    exact List.mem_map.mpr ⟨v, List.mem_reverse.mpr hv, rfl⟩

/-- C5 witness: with two materialized views and all creations succeeding,
the run emits drop-if-exists, create, reflect per view followed by the
deferred drops, and `mv1_temp` is absent from the database afterwards. -/
theorem c5_temp_view_lifecycle_witness :
    matViewRun (fun _ => true) (fun _ => true) false ["mv1", "mv2"] =
      [DbOp.dropViewIfExists "mv1_temp", DbOp.createView "mv1_temp" "mv1",
       DbOp.reflectModel "mv1_temp",
       DbOp.dropViewIfExists "mv2_temp", DbOp.createView "mv2_temp" "mv2",
       DbOp.reflectModel "mv2_temp",
       DbOp.dropView "mv2_temp", DbOp.dropView "mv1_temp"]
    ∧ "mv1_temp" ∉
        runDbOps ["mv1", "mv2"]
          (matViewRun (fun _ => true) (fun _ => true) false ["mv1", "mv2"]) := by
  have h := c5_temp_view_lifecycle (fun _ => true) (fun _ => true) ["mv1", "mv2"]
    (by intro v _; rfl)
  exact ⟨h.1, h.2 "mv1" (by decide) ["mv1", "mv2"]⟩

/-- C6: in the materialized-view snapshot protocol, the run's operation
trace does not depend on whether the pre-emptive drop-if-exists or the
final cleanup drops succeed (their results are discarded, so their
failure never terminates the run), and the run ends in `log.Fatal`
exactly when some temp-view creation fails or a later step of the run
fails. -/
theorem c6_create_fatal_drop_swallowed (dropOk dropOk2 createOk : String → Bool)
    (laterFatal : Bool) (views : List String) :
    matViewRun dropOk createOk laterFatal views =
      matViewRun dropOk2 createOk laterFatal views
    ∧ (DbOp.fatalExit ∈ matViewRun dropOk createOk laterFatal views ↔
        (∃ v ∈ views, createOk (v ++ "_temp") = false) ∨ laterFatal = true) := by
  constructor
  · exact matViewLoop_dropOk_irrelevant dropOk dropOk2 createOk laterFatal views []
  · exact fatalExit_mem_matViewLoop dropOk createOk laterFatal views []
      (by intro h; cases h)

/-- The data `generatePostgresDbInit` passes to the `pgDbInit` template.
`modelStructNames` is built by iterating the `g.Data` map
(`for modelName := range g.Data`), whose order Go does not specify, so the
list order here stands for the map iteration order of a particular run.
The `filepath.Base` computations feeding `packageName` are external
path-library calls and are taken as inputs. -/
structure PgDbInitData where
  packageName : String
  fullPackageName : String
  dbHost : String
  dbPort : Int
  dbName : String
  dbUser : String
  dbPassword : String
  dbSSLMode : Bool
  includeAutoMigrate : Bool
  modelStructNames : List String
deriving Repr

/-- The `range .ModelStructNames` body of the template: after the
whitespace trimming of the surrounding dash-actions, each name renders as
a newline, two tabs and an `&models.<name>` composite-literal line. -/
def renderAutoMigrateNames (modelStructNames : List String) : String :=
  String.join (modelStructNames.map (fun n => "\n\t\t&models." ++ n ++ "\x7b\x7d,"))

/-- `tmpl.Execute` of the `pgDbInitTemplate` literal from the source on
the prepared data, chunk for chunk; the two conditional blocks follow
`IncludeAutoMigrate` and integers and booleans render in their decimal
and `true`/`false` forms, as Go's text/template prints them. -/
def renderPgDbInit (d : PgDbInitData) : String :=
  "\n// Code generated by gormdb2struct; DO NOT EDIT.\n" ++
  "// This file was generated automatically to initialize DB connections.\n" ++
  "// Warning: Manual edits may be overwritten by the generator and IDEs like GoLand may mark this as generated code.\n" ++
  "package " ++ d.packageName ++ "\n\n" ++
  "import (\n\t\"fmt\"\n\t\"log/slog\"\n\t\"os\"\n" ++
  "\tslogGorm \"github.com/orandin/slog-gorm\"\n" ++
  "\t\"gorm.io/driver/postgres\"\n\t\"gorm.io/gorm\"\n\t" ++
  (if d.includeAutoMigrate then
    "\n\t\"" ++ d.fullPackageName ++ "/models\"\n\t"
  else "") ++
  "\n)\n\n" ++
  "var (\n" ++
  "\tDbHost     = \"" ++ d.dbHost ++ "\"\n" ++
  "\tDbPort     = " ++ toString d.dbPort ++ "\n" ++
  "\tDbName     = \"" ++ d.dbName ++ "\"\n" ++
  "\tDbUser     = \"" ++ d.dbUser ++ "\"\n" ++
  "\tDbPassword = \"" ++ d.dbPassword ++ "\"\n" ++
  "\tDbSSLMode  = " ++ toString d.dbSSLMode ++ "\n" ++
  "\tDB         *gorm.DB\n)\n\n" ++
  "func DbInit(optionalDSN ...string) \x7b\n" ++
  "\tvar dsn string\n" ++
  "\tif len(optionalDSN) > 0 && optionalDSN[0] != \"\" \x7b\n" ++
  "\t\tdsn = optionalDSN[0]\n" ++
  "\t\x7d else \x7b\n" ++
  "\t\tdsn = DbDSN(DbDSNConfig\x7b\n" ++
  "\t\tServer:   DbHost,\n" ++
  "\t\tPort:     DbPort,\n" ++
  "\t\tName:     DbName,\n" ++
  "\t\tUser:     DbUser,\n" ++
  "\t\tPassword: DbPassword,\n" ++
  "\t\tSSLMode:  DbSSLMode,\n" ++
  "\t\x7d)\n" ++
  "\t\x7d\n" ++
  "\tslog.Info(\"Connecting to database\", slog.String(\"host\", DbHost), slog.Int(\"port\", DbPort), slog.String(\"db\", DbName), slog.String(\"user\", DbUser))\n" ++
  "\tgormDB, err := gorm.Open(postgres.Open(dsn), &gorm.Config\x7bLogger: slogGorm.New()\x7d)\n" ++
  "\tif err != nil \x7b\n" ++
  "\t\tslog.Error(err.Error())\n" ++
  "\t\tos.Exit(1)\n" ++
  "\t\x7d\n" ++
  "\tsqldb, _ := gormDB.DB()\n" ++
  "\tif err = sqldb.Ping(); err != nil \x7b\n" ++
  "\t\tslog.Error(\"Unable to ping database: \", slog.String(\"error\", err.Error()))\n" ++
  "\t\tos.Exit(1)\n" ++
  "\t\x7d\n" ++
  "\tslog.Info(\"Database connection established\")\n\n\t" ++
  (if d.includeAutoMigrate then
    "\n\t// Ensure schema exists (idempotent). Uses GORM AutoMigrate to create tables and indexes.\n" ++
    "\tslog.Debug(\"Ensuring database schema via AutoMigrate\")\n" ++
    "\tif err = gormDB.AutoMigrate(" ++
    renderAutoMigrateNames d.modelStructNames ++
    "\n\t); err != nil \x7b\n" ++
    "\t\tslog.Error(\"Unable to ensure database schema\", slog.String(\"error\", err.Error()))\n" ++
    "\t\tos.Exit(1)\n" ++
    "\t\x7d\n\t"
  else "") ++
  "\n\n" ++
  "\t// Expose the query objects for use elsewhere in the app.\n" ++
  "\tSetDefault(gormDB)\n" ++
  "\tDB = gormDB\n" ++
  "\tslog.Debug(\"GORM query objects initialized\")\n" ++
  "\x7d\n\n" ++
  "type (\n" ++
  "\tDbDSNConfig struct \x7b\n" ++
  "\t\tServer   string\n" ++
  "\t\tPort     int\n" ++
  "\t\tName     string\n" ++
  "\t\tUser     string\n" ++
  "\t\tPassword string\n" ++
  "\t\tSSLMode  bool\n" ++
  "\t\tTimeZone string\n" ++
  "\t\x7d\n)\n\n" ++
  "// DbDSN generates a database connection string (DSN) based on the provided configuration structure, including server, port, database name, user, password, SSL mode, and timezone. The SSL mode defaults to \"enable\" or \"disable\" based on the cfg.SSLMode flag.\n" ++
  "func DbDSN(cfg DbDSNConfig) string \x7b\n" ++
  "\tvar sm string\n" ++
  "\tif cfg.SSLMode \x7b\n" ++
  "\t\tsm = \"enable\"\n" ++
  "\t\x7d else \x7b\n" ++
  "\t\tsm = \"disable\"\n" ++
  "\t\x7d\n" ++
  "\tconnstr := fmt.Sprintf(\"host=%s dbname=%s sslmode=%s\", cfg.Server, cfg.Name, sm)\n" ++
  "\tif cfg.Port != 0 \x7b\n" ++
  "\t\tconnstr = fmt.Sprintf(\"%s port=%d\", connstr, cfg.Port)\n" ++
  "\t\x7d\n" ++
  "\tif len(cfg.User) > 0 \x7b\n" ++
  "\t\tconnstr = fmt.Sprintf(\"%s user=%s\", connstr, cfg.User)\n" ++
  "\t\x7d\n" ++
  "\tif len(cfg.Password) > 0 \x7b\n" ++
  "\t\tconnstr = fmt.Sprintf(\"%s password=%s\", connstr, cfg.Password)\n" ++
  "\t\x7d\n" ++
  "\tif len(cfg.TimeZone) > 0 \x7b\n" ++
  "\t\tconnstr = fmt.Sprintf(\"%s TimeZone=%s\", connstr, cfg.TimeZone)\n" ++
  "\t\x7d\n" ++
  "\treturn connstr\n" ++
  "\x7d\n\n"

/-- The template text rendered before the AutoMigrate model list when
`IncludeAutoMigrate` is set, as one string of the data's scalar fields. -/
def renderPgDbInitPre (d : PgDbInitData) : String :=
  "\n// Code generated by gormdb2struct; DO NOT EDIT.\n" ++
  "// This file was generated automatically to initialize DB connections.\n" ++
  "// Warning: Manual edits may be overwritten by the generator and IDEs like GoLand may mark this as generated code.\n" ++
  "package " ++ d.packageName ++ "\n\n" ++
  "import (\n\t\"fmt\"\n\t\"log/slog\"\n\t\"os\"\n" ++
  "\tslogGorm \"github.com/orandin/slog-gorm\"\n" ++
  "\t\"gorm.io/driver/postgres\"\n\t\"gorm.io/gorm\"\n\t" ++
  "\n\t\"" ++ d.fullPackageName ++ "/models\"\n\t" ++
  "\n)\n\n" ++
  "var (\n" ++
  "\tDbHost     = \"" ++ d.dbHost ++ "\"\n" ++
  "\tDbPort     = " ++ toString d.dbPort ++ "\n" ++
  "\tDbName     = \"" ++ d.dbName ++ "\"\n" ++
  "\tDbUser     = \"" ++ d.dbUser ++ "\"\n" ++
  "\tDbPassword = \"" ++ d.dbPassword ++ "\"\n" ++
  "\tDbSSLMode  = " ++ toString d.dbSSLMode ++ "\n" ++
  "\tDB         *gorm.DB\n)\n\n" ++
  "func DbInit(optionalDSN ...string) \x7b\n" ++
  "\tvar dsn string\n" ++
  "\tif len(optionalDSN) > 0 && optionalDSN[0] != \"\" \x7b\n" ++
  "\t\tdsn = optionalDSN[0]\n" ++
  "\t\x7d else \x7b\n" ++
  "\t\tdsn = DbDSN(DbDSNConfig\x7b\n" ++
  "\t\tServer:   DbHost,\n" ++
  "\t\tPort:     DbPort,\n" ++
  "\t\tName:     DbName,\n" ++
  "\t\tUser:     DbUser,\n" ++
  "\t\tPassword: DbPassword,\n" ++
  "\t\tSSLMode:  DbSSLMode,\n" ++
  "\t\x7d)\n" ++
  "\t\x7d\n" ++
  "\tslog.Info(\"Connecting to database\", slog.String(\"host\", DbHost), slog.Int(\"port\", DbPort), slog.String(\"db\", DbName), slog.String(\"user\", DbUser))\n" ++
  "\tgormDB, err := gorm.Open(postgres.Open(dsn), &gorm.Config\x7bLogger: slogGorm.New()\x7d)\n" ++
  "\tif err != nil \x7b\n" ++
  "\t\tslog.Error(err.Error())\n" ++
  "\t\tos.Exit(1)\n" ++
  "\t\x7d\n" ++
  "\tsqldb, _ := gormDB.DB()\n" ++
  "\tif err = sqldb.Ping(); err != nil \x7b\n" ++
  "\t\tslog.Error(\"Unable to ping database: \", slog.String(\"error\", err.Error()))\n" ++
  "\t\tos.Exit(1)\n" ++
  "\t\x7d\n" ++
  "\tslog.Info(\"Database connection established\")\n\n\t" ++
  "\n\t// Ensure schema exists (idempotent). Uses GORM AutoMigrate to create tables and indexes.\n" ++
  "\tslog.Debug(\"Ensuring database schema via AutoMigrate\")\n" ++
  "\tif err = gormDB.AutoMigrate("

/-- The template text rendered after the AutoMigrate model list when
`IncludeAutoMigrate` is set. -/
def renderPgDbInitSuf : String :=
  "\n\t); err != nil \x7b\n" ++
  "\t\tslog.Error(\"Unable to ensure database schema\", slog.String(\"error\", err.Error()))\n" ++
  "\t\tos.Exit(1)\n" ++
  "\t\x7d\n\t" ++
  "\n\n" ++
  "\t// Expose the query objects for use elsewhere in the app.\n" ++
  "\tSetDefault(gormDB)\n" ++
  "\tDB = gormDB\n" ++
  "\tslog.Debug(\"GORM query objects initialized\")\n" ++
  "\x7d\n\n" ++
  "type (\n" ++
  "\tDbDSNConfig struct \x7b\n" ++
  "\t\tServer   string\n" ++
  "\t\tPort     int\n" ++
  "\t\tName     string\n" ++
  "\t\tUser     string\n" ++
  "\t\tPassword string\n" ++
  "\t\tSSLMode  bool\n" ++
  "\t\tTimeZone string\n" ++
  "\t\x7d\n)\n\n" ++
  "// DbDSN generates a database connection string (DSN) based on the provided configuration structure, including server, port, database name, user, password, SSL mode, and timezone. The SSL mode defaults to \"enable\" or \"disable\" based on the cfg.SSLMode flag.\n" ++
  "func DbDSN(cfg DbDSNConfig) string \x7b\n" ++
  "\tvar sm string\n" ++
  "\tif cfg.SSLMode \x7b\n" ++
  "\t\tsm = \"enable\"\n" ++
  "\t\x7d else \x7b\n" ++
  "\t\tsm = \"disable\"\n" ++
  "\t\x7d\n" ++
  "\tconnstr := fmt.Sprintf(\"host=%s dbname=%s sslmode=%s\", cfg.Server, cfg.Name, sm)\n" ++
  "\tif cfg.Port != 0 \x7b\n" ++
  "\t\tconnstr = fmt.Sprintf(\"%s port=%d\", connstr, cfg.Port)\n" ++
  "\t\x7d\n" ++
  "\tif len(cfg.User) > 0 \x7b\n" ++
  "\t\tconnstr = fmt.Sprintf(\"%s user=%s\", connstr, cfg.User)\n" ++
  "\t\x7d\n" ++
  "\tif len(cfg.Password) > 0 \x7b\n" ++
  "\t\tconnstr = fmt.Sprintf(\"%s password=%s\", connstr, cfg.Password)\n" ++
  "\t\x7d\n" ++
  "\tif len(cfg.TimeZone) > 0 \x7b\n" ++
  "\t\tconnstr = fmt.Sprintf(\"%s TimeZone=%s\", connstr, cfg.TimeZone)\n" ++
  "\t\x7d\n" ++
  "\treturn connstr\n" ++
  "\x7d\n\n"

theorem renderPgDbInit_split (d : PgDbInitData) (h : d.includeAutoMigrate = true) :
    renderPgDbInit d =
      renderPgDbInitPre d ++
        (renderAutoMigrateNames d.modelStructNames ++ renderPgDbInitSuf) := by
  simp only [renderPgDbInit, renderPgDbInitPre, renderPgDbInitSuf, h,
    eq_self_iff_true, if_true, String.append_assoc]

theorem string_append_left_cancel {a b c : String} (h : a ++ b = a ++ c) : b = c := by
  have hd := congrArg String.data h
  simp only [String.data_append] at hd
  have hbc := List.append_cancel_left hd
  cases b
  cases c
  exact congrArg String.mk hbc

theorem string_append_right_cancel {a b c : String} (h : a ++ c = b ++ c) : a = b := by
  have hd := congrArg String.data h
  simp only [String.data_append] at hd
  have hab := List.append_cancel_right hd
  cases a
  cases b
  exact congrArg String.mk hab

/-- C7 counterexample: two runs over an unchanged schema and config that
differ only in the `g.Data` map iteration order (for example `ModelA`
before `ModelB` versus the reverse) render different `db.go` bytes when
`IncludeAutoMigrate` is set, because the AutoMigrate list follows the
iteration order — so the pipeline output is not byte-identical across
runs. -/
theorem c7_counterexample :
    renderPgDbInit
      { packageName := "generated", fullPackageName := "generated",
        dbHost := "localhost", dbPort := 5432, dbName := "mydb", dbUser := "",
        dbPassword := "", dbSSLMode := false, includeAutoMigrate := true,
        modelStructNames := ["ModelA", "ModelB"] } ≠
    renderPgDbInit
      { packageName := "generated", fullPackageName := "generated",
        dbHost := "localhost", dbPort := 5432, dbName := "mydb", dbUser := "",
        dbPassword := "", dbSSLMode := false, includeAutoMigrate := true,
        modelStructNames := ["ModelB", "ModelA"] } := by
  intro heq
  rw [renderPgDbInit_split _ rfl, renderPgDbInit_split _ rfl] at heq
  have hjoin := string_append_right_cancel (string_append_left_cancel heq)
  have hne : renderAutoMigrateNames ["ModelA", "ModelB"] ≠
      renderAutoMigrateNames ["ModelB", "ModelA"] := by decide
  exact hne hjoin

/-- C7 amended: for a fixed map iteration order the rendered db-init file
is a pure function of schema and config, but Go map iteration order is
unspecified, so byte-identical output across two runs is only guaranteed
when the AutoMigrate block is disabled (`IncludeAutoMigrate` false, which
makes the rendered file independent of the iteration order); with the
block enabled the bytes follow the iteration order (see the
counterexample). -/
theorem c7_render_deterministic (d : PgDbInitData)
    (namesRun1 namesRun2 : List String) (h : d.includeAutoMigrate = false) :
    renderPgDbInit { d with modelStructNames := namesRun1 } =
      renderPgDbInit { d with modelStructNames := namesRun2 } := by
  simp [renderPgDbInit, h]

/-- C7 witness: with `IncludeAutoMigrate` off, the two iteration orders of
the counterexample render identical bytes. -/
theorem c7_render_deterministic_witness :
    renderPgDbInit
      { packageName := "generated", fullPackageName := "generated",
        dbHost := "localhost", dbPort := 5432, dbName := "mydb", dbUser := "",
        dbPassword := "", dbSSLMode := false, includeAutoMigrate := false,
        modelStructNames := ["ModelA", "ModelB"] } =
    renderPgDbInit
      { packageName := "generated", fullPackageName := "generated",
        dbHost := "localhost", dbPort := 5432, dbName := "mydb", dbUser := "",
        dbPassword := "", dbSSLMode := false, includeAutoMigrate := false,
        modelStructNames := ["ModelB", "ModelA"] } :=
  c7_render_deterministic
    { packageName := "generated", fullPackageName := "generated",
      dbHost := "localhost", dbPort := 5432, dbName := "mydb", dbUser := "",
      dbPassword := "", dbSSLMode := false, includeAutoMigrate := false,
      modelStructNames := ["ModelA", "ModelB"] }
    ["ModelA", "ModelB"] ["ModelB", "ModelA"] rfl

/-- C8 witness: the empty type string and a separator-free type string
come through as-is, and the trailing-separator string `"models."` yields
the empty base type name. -/
theorem c8_malformed_type_degrades_witness :
    (genRelationField
      { structPropName := "A", structPropType := "",
        fkStructPropName := "", refStructPropName := "",
        hasMany := false, pointer := false }).fieldType = ""
    ∧ (genRelationField
      { structPropName := "B", structPropType := "Attachment",
        fkStructPropName := "", refStructPropName := "",
        hasMany := false, pointer := false }).fieldType = "Attachment"
    ∧ (genRelationField
      { structPropName := "C", structPropType := "models.",
        fkStructPropName := "", refStructPropName := "",
        hasMany := false, pointer := false }).fieldType = "" :=
  ⟨(c8_malformed_type_degrades
      { structPropName := "A", structPropType := "",
        fkStructPropName := "", refStructPropName := "",
        hasMany := false, pointer := false }).1 rfl rfl rfl,
   (c8_malformed_type_degrades
      { structPropName := "B", structPropType := "Attachment",
        fkStructPropName := "", refStructPropName := "",
        hasMany := false, pointer := false }).2.1 (by decide) rfl rfl,
   (c8_malformed_type_degrades
      { structPropName := "C", structPropType := "models.",
        fkStructPropName := "", refStructPropName := "",
        hasMany := false, pointer := false }).2.2 "models" (by decide) rfl rfl⟩
